import Mathlib

/-!
Shallow embedding of the repository's three scripts (`main.py`,
`prompt.py`, `Simplechain.py`) and of the parts of the prompting library
they exercise.  The language model itself is kept abstract: every runner
takes an oracle `String → String` (or `String → Except String String`
where transport failures matter) mapping a rendered prompt to the
generated text.
-/

namespace LangchainSpec

/-- A mapping from variable names to text values, as passed to template
rendering and to chains. -/
abbrev Mapping := List (String × String)

/-- The keys of a mapping, in order. -/
def Mapping.keys (m : Mapping) : List String := m.map Prod.fst

/-- One piece of a parsed template: literal text or a `{name}` placeholder. -/
inductive Part where
  | lit (s : String)
  | var (v : String)
deriving DecidableEq, Repr

/-- Scanner state for `parseParts`: `acc` collects the current literal
run (reversed); when `varAcc? = some vs`, we are inside `{...}` collecting
the placeholder name (reversed). -/
def parsePartsAux : List Char → List Char → Option (List Char) → List Part
  | [], acc, none =>
      if acc.isEmpty then [] else [Part.lit (String.mk acc.reverse)]
  | [], acc, some vs =>
      -- unterminated `{`: keep it as literal text
      (if acc.isEmpty then [] else [Part.lit (String.mk acc.reverse)]) ++
        [Part.lit (String.mk ('{' :: vs.reverse))]
  | c :: cs, acc, none =>
      if c = '{' then
        (if acc.isEmpty then [] else [Part.lit (String.mk acc.reverse)]) ++
          parsePartsAux cs [] (some [])
      else
        parsePartsAux cs (c :: acc) none
  | c :: cs, acc, some vs =>
      if c = '}' then
        Part.var (String.mk vs.reverse) :: parsePartsAux cs [] none
      else
        parsePartsAux cs acc (some (c :: vs))

/-- Parse a template string into literal and placeholder parts
(the `{name}` placeholder syntax used by all templates in the scripts). -/
def parseParts (s : String) : List Part :=
  parsePartsAux s.data [] none

/-- The placeholder names occurring in a list of parts, in order. -/
def placeholders (ps : List Part) : List String :=
  ps.filterMap fun p => match p with
    | Part.lit _ => none
    | Part.var v => some v

/-- Substitute a mapping into parsed parts; a placeholder absent from the
mapping renders as the empty string (callers check presence beforehand). -/
def renderParts (ps : List Part) (m : Mapping) : String :=
  ps.foldl (fun acc p => acc ++ (match p with
    | Part.lit s => s
    | Part.var v => (m.lookup v).getD "")) ""

/-- Whether the pattern (first argument) is an initial segment of the
text (second argument). -/
def charsStartWith : List Char → List Char → Bool
  | [], _ => true
  | _ :: _, [] => false
  | p :: ps, c :: cs => p == c && charsStartWith ps cs

/-- Whether the pattern occurs contiguously anywhere in the text. -/
def charsContain (p : List Char) : List Char → Bool
  | [] => p.isEmpty
  | c :: cs => charsStartWith p (c :: cs) || charsContain p cs

/-- Whether the pattern is a final segment of the text. -/
def charsEndWith (p s : List Char) : Bool :=
  charsStartWith p.reverse s.reverse

/-- The two template-rendering failures surfaced by the library:
an unfilled declared placeholder, or a supplied key the template never
declared. -/
inductive RenderError where
  | missingVariable (v : String)
  | unusedVariable (v : String)
deriving DecidableEq, Repr

/-- Whether a rendering outcome is an unused-variable failure. -/
def isUnusedVariableError : Except RenderError String → Bool
  | Except.error (RenderError.unusedVariable _) => true
  | _ => false

/-- A prompt template: the declared variable names and the template text,
as built by `PromptTemplate(input_variables=..., template=...)`. -/
structure PromptTemplate where
  inputVariables : List String
  template : String
deriving DecidableEq, Repr

/-- The parsed parts of a template. -/
def PromptTemplate.parts (pt : PromptTemplate) : List Part :=
  parseParts pt.template

/-- Modelled from the spec: the template renderer (spec 4.1, library
internals not in the repository).  Given a template and a mapping it
fails with a missing-variable error if any declared variable is unfilled,
fails with an unused-variable error if the mapping holds an undeclared
key, and otherwise returns the fully substituted text.  The missing check
runs first, as in the underlying string formatter, which substitutes
(raising on the first absent key) before checking for unused arguments. -/
def PromptTemplate.format (pt : PromptTemplate) (m : Mapping) :
    Except RenderError String :=
  match pt.inputVariables.find? (fun v => (m.lookup v).isNone) with
  | some v => Except.error (RenderError.missingVariable v)
  | none =>
    match (Mapping.keys m).find? (fun k => !(pt.inputVariables.contains k)) with
    | some k => Except.error (RenderError.unusedVariable k)
    | none => Except.ok (renderParts pt.parts m)

/-- Render a template's parts with a mapping, without validation; used
where the caller has already established the mapping is exact. -/
def PromptTemplate.formatValues (pt : PromptTemplate) (m : Mapping) : String :=
  renderParts pt.parts m

/-- A few-shot prompt template, as built by `FewShotPromptTemplate(...)`
in `prompt.py`: example mappings, the per-example template, surrounding
prefix/suffix text, the declared final input variables and the separator. -/
structure FewShotPromptTemplate where
  examples : List Mapping
  examplePrompt : PromptTemplate
  prefixText : String
  suffixText : String
  inputVariables : List String
  exampleSeparator : String
deriving DecidableEq, Repr

/-- Modelled from the spec: the few-shot renderer (spec section 2 and 3;
library internals not in the repository).  The example pairs are rendered
by the example template and placed ahead of the actual query: the prefix,
the rendered examples and the suffix are joined by the separator, and the
final input mapping is substituted into the resulting text. -/
def FewShotPromptTemplate.format (fs : FewShotPromptTemplate) (m : Mapping) :
    String :=
  let pieces := fs.prefixText ::
    fs.examples.map (fun ex => fs.examplePrompt.formatValues ex) ++
      [fs.suffixText]
  renderParts (parseParts (String.intercalate fs.exampleSeparator pieces)) m

/-! ### `prompt.py`: the prompt-template demonstration script -/

namespace Prompt

/-- Source: `demo_tem` from `prompt.py`. -/
def demo_tem : String :=
  " I want you to act as a financial advisor for people. In an easy way, explain the basics of {financial_concept}."

/-- Source: `prompt = PromptTemplate(input_variables=['financial_concept'], template=demo_tem)`. -/
def prompt : PromptTemplate :=
  { inputVariables := ["financial_concept"], template := demo_tem }

/-- Source: `template_1` from `prompt.py`. -/
def template_1 : String :=
  "Translate the following sentence {sentence} into {target_language}"

/-- Source: `lang_prompt = PromptTemplate(input_variables=['sentence','target_language'], template=template_1)`. -/
def lang_prompt : PromptTemplate :=
  { inputVariables := ["sentence", "target_language"], template := template_1 }

/-- Source: `examples` from `prompt.py`: the fixed (word, antonym) pairs. -/
def examples : List Mapping :=
  [[("word", "tall"), ("antonym", "short")],
   [("word", "happy"), ("antonym", "sad")]]

/-- Source: `format_template` from `prompt.py`. -/
def format_template : String := "word:{word}, antonym:{antonym}"

/-- Source: `example_prompt_f = PromptTemplate(input_variables=["word","antonym"], template=format_template)`. -/
def example_prompt_f : PromptTemplate :=
  { inputVariables := ["word", "antonym"], template := format_template }

/-- Source: `few_shot = FewShotPromptTemplate(examples=..., example_prompt=...,
prefix=..., suffix=..., input_variables=["input"], example_separator="\n")`. -/
def few_shot : FewShotPromptTemplate :=
  { examples := examples
    examplePrompt := example_prompt_f
    prefixText := "Given the antonym of every input\n"
    suffixText := "word:{input}\n antonym:"
    inputVariables := ["input"]
    exampleSeparator := "\n" }

end Prompt

/-! ### Chains, memory and the sequential pipeline -/

/-- The language-model client `OpenAI(temperature=...)`: the only
configuration the scripts set is the sampling temperature. -/
structure OpenAI where
  temperature : ℚ
deriving DecidableEq, Repr

/-- One completion request as it leaves the scripts: the rendered prompt
text and the sampling temperature. -/
structure Request where
  prompt : String
  temperature : ℚ
deriving DecidableEq, Repr

/-- Source: `ConversationBufferMemory(input_key=..., memory_key=...)` with its
buffer.  Modelled from the spec: the buffer is an ordered append-only
sequence of (input, output) text pairs for one stage (spec section 3;
library internals not in the repository).  The buffer starts empty. -/
structure ConversationBufferMemory where
  inputKey : String
  memoryKey : String
  buffer : List (String × String) := []
deriving DecidableEq, Repr

/-- Source: `LLMChain(llm=..., prompt=..., output_key=..., memory=...)`: one
templated request whose output is recorded under `outputKey`. -/
structure LLMChain where
  prompt : PromptTemplate
  outputKey : String
  memory : Option ConversationBufferMemory := none
deriving DecidableEq, Repr

/-- A pipeline failure: a template-rendering error or a transport/API
error carried verbatim from the language-model call. -/
inductive PipeError where
  | render (e : RenderError)
  | llm (msg : String)
deriving DecidableEq, Repr

/-- Keep only the named keys of a mapping (in the order the names are
given), dropping names the mapping does not hold. -/
def restrict (m : Mapping) (ks : List String) : Mapping :=
  ks.filterMap fun k => (m.lookup k).map fun v => (k, v)

/-- Modelled from the spec: one pipeline stage execution (spec section
4.2 and 4.3; library internals not in the repository).  The stage renders
its template from the values accumulated so far, issues one completion
request, appends the (input, output) pair to its conversation buffer, and
records the output under its output key.  Any failure is returned
unmodified. -/
def runStep (llm : OpenAI) (o : String → Except String String)
    (c : LLMChain) (vals : Mapping) :
    Except PipeError (Mapping × LLMChain × Request) :=
  match c.prompt.format (restrict vals c.prompt.inputVariables) with
  | Except.error e => Except.error (PipeError.render e)
  | Except.ok p =>
    match o p with
    | Except.error msg => Except.error (PipeError.llm msg)
    | Except.ok out =>
      Except.ok (vals ++ [(c.outputKey, out)],
        { c with
          memory := c.memory.map fun mem =>
            { mem with
              buffer := mem.buffer ++
                [((vals.lookup mem.inputKey).getD "", out)] } },
        { prompt := p, temperature := llm.temperature })

/-- Modelled from the spec: run the stages strictly in order, each
stage's output becoming available to later stages; a failure in any stage
aborts the remaining stages and propagates the failure (spec section
4.3).  Returns the accumulated values, the stages with their updated
buffers, and the requests issued. -/
def runChains (llm : OpenAI) (o : String → Except String String) :
    List LLMChain → Mapping →
    Except PipeError (Mapping × List LLMChain × List Request)
  | [], vals => Except.ok (vals, [], [])
  | c :: cs, vals =>
    match runStep llm o c vals with
    | Except.error e => Except.error e
    | Except.ok (vals', c', r) =>
      match runChains llm o cs vals' with
      | Except.error e => Except.error e
      | Except.ok (vals'', cs', rs) => Except.ok (vals'', c' :: cs', r :: rs)

/-- A placeholder chain, used only as the default of list indexing. -/
def dfltChain : LLMChain :=
  { prompt := { inputVariables := [], template := "" }, outputKey := "" }

/-- Stage wiring: every stage's declared input variable is either the
pipeline's external input key or the output key of a strictly earlier
stage. -/
def wellWired (ext : String) (cs : List LLMChain) : Prop :=
  ∀ i < cs.length, ∀ v ∈ (cs.getD i dfltChain).prompt.inputVariables,
    v = ext ∨ v ∈ (cs.take i).map LLMChain.outputKey

/-- Source: `SequentialChain(chains=..., input_variables=..., output_variables=...)`. -/
structure SequentialChain where
  chains : List LLMChain
  inputVariables : List String
  outputVariables : List String
deriving DecidableEq, Repr

/-- Modelled from the spec: invoking the sequential pipeline on one input
value (spec section 4.3).  The input is bound to the declared input
variable, the stages run strictly in order, and the final result is the
mapping of the declared output keys. -/
def SequentialChain.call (sc : SequentialChain) (llm : OpenAI)
    (o : String → Except String String) (input : String) :
    Except PipeError (Mapping × List LLMChain × List Request) :=
  (runChains llm o sc.chains [(sc.inputVariables.headD "", input)]).map
    fun r => (restrict r.1 sc.outputVariables, r.2.1, r.2.2)

/-- One `chain.run(...)`-style invocation with an infallible oracle:
render the prompt from the mapping, issue one completion request, return
the generated text.  No retry: exactly one request per invocation. -/
def LLMChain.runTrace (c : LLMChain) (llm : OpenAI) (o : String → String)
    (m : Mapping) : List Request × String :=
  let p := c.prompt.formatValues (restrict m c.prompt.inputVariables)
  ([{ prompt := p, temperature := llm.temperature }], o p)

/-- Source: `chain.run("...")` with a bare string: the value is bound to the
chain's single declared input variable. -/
def LLMChain.runStr (c : LLMChain) (llm : OpenAI) (o : String → String)
    (s : String) : List Request × String :=
  c.runTrace llm o [(c.prompt.inputVariables.headD "", s)]

/-- A chain whose prompt is a few-shot template: render it from the
mapping and issue one completion request. -/
def fewShotRunTrace (fs : FewShotPromptTemplate) (llm : OpenAI)
    (o : String → String) (m : Mapping) : List Request × String :=
  let p := fs.format (restrict m fs.inputVariables)
  ([{ prompt := p, temperature := llm.temperature }], o p)

/-- How the model renders a printed result dictionary (key/value pairs
between braces); the exact text is immaterial to every claim. -/
def pyDictRepr (m : Mapping) : String :=
  "\x7b" ++ String.intercalate ", " (m.map fun kv => kv.1 ++ ": " ++ kv.2) ++ "\x7d"

namespace Prompt

/-- Source: `llm = OpenAI(temperature=0.8)` in `prompt.py`. -/
def llm : OpenAI := { temperature := 0.8 }

/-- Source: `chain = LLMChain(llm=llm, prompt=prompt)` (the library's default
output key is `text`). -/
def chain : LLMChain := { prompt := Prompt.prompt, outputKey := "text" }

/-- Source: `chain2 = LLMChain(llm=llm, prompt=lang_prompt)`. -/
def chain2 : LLMChain := { prompt := lang_prompt, outputKey := "text" }

/-- The `chain.run('GDP')` segment of `prompt.py` (lines 17–19): build the
single-variable chain over the temperature-0.8 client, issue its one
request and print its one result. -/
def singlePromptRun (o : String → String) : List Request × List String :=
  let r := chain.runStr llm o "GDP"
  (r.1, [r.2])

/-- The whole `prompt.py` script body: one single-variable request, a
banner, one two-variable request, a banner, the printed few-shot
rendering (no request), then `chain3({'input':"big"})` and
`chain3.run('big')`, each issuing one few-shot request.  Returns the
requests issued and the printed lines, in order. -/
def promptScript (o : String → String) : List Request × List String :=
  let (r1, t1) := chain.runStr llm o "GDP"
  let (r2, t2) := chain2.runTrace llm o
    [("sentence", "Hellow, How r u"), ("target_language", "Telugu")]
  let fsText := few_shot.format [("input", "big")]
  let (r3, t3) := fewShotRunTrace few_shot llm o [("input", "big")]
  let (r4, t4) := fewShotRunTrace few_shot llm o [("input", "big")]
  (r1 ++ r2 ++ r3 ++ r4,
   [t1, "******Language Translation**********", t2,
    "*******FewShotPromptTemplate*******", fsText,
    pyDictRepr [("input", "big"), ("text", t3)], t4])

end Prompt

/-! ### `Simplechain.py`: the sequential three-stage pipeline script -/

namespace Simplechain

/-- Source: `l = OpenAI(temperature=0.8)`. -/
def l : OpenAI := { temperature := 0.8 }

/-- Source: `first_input = PromptTemplate(input_variables=['name'], template="Tell me about {name}")`. -/
def first_input : PromptTemplate :=
  { inputVariables := ["name"], template := "Tell me about {name}" }

/-- Source: `person_memory = ConversationBufferMemory(input_key='name', memory_key='person_history')`,
parametrised by its current buffer (initially `[]`, as constructed). -/
def person_memory (b : List (String × String)) : ConversationBufferMemory :=
  { inputKey := "name", memoryKey := "person_history", buffer := b }

/-- Source: `chain = LLMChain(llm=l, prompt=first_input, output_key='person', memory=person_memory)`. -/
def chain (b : List (String × String)) : LLMChain :=
  { prompt := first_input, outputKey := "person", memory := some (person_memory b) }

/-- Source: `second_input = PromptTemplate(input_variables=['person'], template="When was {person} born")`. -/
def second_input : PromptTemplate :=
  { inputVariables := ["person"], template := "When was {person} born" }

/-- Source: `dob_memory = ConversationBufferMemory(input_key='person', memory_key='dob_history')`. -/
def dob_memory (b : List (String × String)) : ConversationBufferMemory :=
  { inputKey := "person", memoryKey := "dob_history", buffer := b }

/-- Source: `chain2 = LLMChain(llm=l, prompt=second_input, output_key='dob', memory=dob_memory)`. -/
def chain2 (b : List (String × String)) : LLMChain :=
  { prompt := second_input, outputKey := "dob", memory := some (dob_memory b) }

/-- Source: `third_input = PromptTemplate(input_variables=['dob'], template="Mention five major event in this {dob}")`. -/
def third_input : PromptTemplate :=
  { inputVariables := ["dob"], template := "Mention five major event in this {dob}" }

/-- Source: `desc_memory = ConversationBufferMemory(input_key='dob', memory_key='desc_history')`. -/
def desc_memory (b : List (String × String)) : ConversationBufferMemory :=
  { inputKey := "dob", memoryKey := "desc_history", buffer := b }

/-- Source: `chain3 = LLMChain(llm=l, prompt=third_input, output_key='description', memory=desc_memory)`. -/
def chain3 (b : List (String × String)) : LLMChain :=
  { prompt := third_input, outputKey := "description", memory := some (desc_memory b) }

/-- The three stages of the pipeline with the given buffer contents. -/
def parentChains (b₁ b₂ b₃ : List (String × String)) : List LLMChain :=
  [chain b₁, chain2 b₂, chain3 b₃]

/-- Source: `parent_chain = SequentialChain(chains=[chain,chain2,chain3],
input_variables=['name'], output_variables=['person','dob','description'])`,
parametrised by the three buffers (initially empty). -/
def parent_chain (b₁ b₂ b₃ : List (String × String)) : SequentialChain :=
  { chains := parentChains b₁ b₂ b₃
    inputVariables := ["name"]
    outputVariables := ["person", "dob", "description"] }

/-- The buffer of the `i`-th stage of a chain list (empty when absent). -/
def bufferAt (cs : List LLMChain) (i : Nat) : List (String × String) :=
  ((cs.getD i dfltChain).memory.map ConversationBufferMemory.buffer).getD []

/-- The `Simplechain.py` script body: `if input_text:` guards the run, so
an empty text-input value runs nothing.  Otherwise the pipeline is invoked
once on the input and its result written to the page.  Returns the values
written by `st.write`, the three buffers after the run, and the requests
issued. -/
def simplechainScript (o : String → String) (input_text : String) :
    List Mapping × (List (String × String) × List (String × String) ×
      List (String × String)) × List Request :=
  if input_text = "" then ([], ([], [], []), [])
  else
    match (parent_chain [] [] []).call l (fun s => Except.ok (o s)) input_text with
    | Except.ok (vals, cs', reqs) =>
        ([vals], (bufferAt cs' 0, bufferAt cs' 1, bufferAt cs' 2), reqs)
    | Except.error _ => ([], ([], [], []), [])

/-- The stage-1 completion text for pipeline input `t` under oracle `o`. -/
def out1 (o : String → String) (t : String) : String :=
  o ("Tell me about " ++ t)

/-- The stage-2 completion text for pipeline input `t` under oracle `o`. -/
def out2 (o : String → String) (t : String) : String :=
  o ("When was " ++ out1 o t ++ " born")

/-- The stage-3 completion text for pipeline input `t` under oracle `o`. -/
def out3 (o : String → String) (t : String) : String :=
  o ("Mention five major event in this " ++ out2 o t)

/-- Repeated pipeline invocations: run the pipeline once per input in
turn, threading the three conversation buffers from run to run (within
one process the memory objects persist across invocations). -/
def iterate (o : String → String) :
    List String →
    List (String × String) × List (String × String) × List (String × String) →
    List (String × String) × List (String × String) × List (String × String)
  | [], bufs => bufs
  | t :: ts, (b₁, b₂, b₃) =>
    match (parent_chain b₁ b₂ b₃).call l (fun s => Except.ok (o s)) t with
    | Except.ok (_, cs', _) =>
        iterate o ts (bufferAt cs' 0, bufferAt cs' 1, bufferAt cs' 2)
    | Except.error _ => (b₁, b₂, b₃)

end Simplechain

/-! ### `main.py`: the single-prompt interactive script -/

namespace Main

/-- Source: `llm = OpenAI(temperature=0.8)`. -/
def llm : OpenAI := { temperature := 0.8 }

/-- The `main.py` script body: `if input_text:` guards the call, so an
empty text-input value runs nothing; otherwise the raw input is sent as
one completion request and the response written to the page. -/
def mainScript (o : String → String) (input_text : String) :
    List Request × List String :=
  if input_text = "" then ([], [])
  else ([{ prompt := input_text, temperature := llm.temperature }], [o input_text])

end Main

/-! ### Helper lemmas -/

/-- Looking a key up in a mapping yields nothing exactly when the key is
absent from the mapping. -/
theorem lookup_isNone_iff (m : Mapping) (k : String) :
    (m.lookup k).isNone = true ↔ k ∉ Mapping.keys m := by
  induction m with
  | nil => simp [List.lookup, Mapping.keys]
  | cons kv rest ih =>
    obtain ⟨a, b⟩ := kv
    by_cases h : k = a
    · subst h
      simp [List.lookup, Mapping.keys]
    · have hba : (k == a) = false := beq_false_of_ne h
      simp [List.lookup, hba, Mapping.keys, h, ih]

/-- One invocation of the three-stage pipeline, fully evaluated: the
result holds exactly the three output keys, each stage's buffer gains
exactly one (input, output) pair, and three requests are issued. -/
theorem parent_call_step (o : String → String) (t : String)
    (b₁ b₂ b₃ : List (String × String)) :
    (Simplechain.parent_chain b₁ b₂ b₃).call Simplechain.l
        (fun s => Except.ok (o s)) t =
      Except.ok
        ([("person", Simplechain.out1 o t), ("dob", Simplechain.out2 o t),
          ("description", Simplechain.out3 o t)],
         Simplechain.parentChains (b₁ ++ [(t, Simplechain.out1 o t)])
           (b₂ ++ [(Simplechain.out1 o t, Simplechain.out2 o t)])
           (b₃ ++ [(Simplechain.out2 o t, Simplechain.out3 o t)]),
         [{ prompt := "Tell me about " ++ t, temperature := 0.8 },
          { prompt := "When was " ++ Simplechain.out1 o t ++ " born",
            temperature := 0.8 },
          { prompt := "Mention five major event in this " ++ Simplechain.out2 o t,
            temperature := 0.8 }]) := by
  rfl

/-- Iterating the pipeline grows each stage's buffer by exactly one entry
per invocation. -/
theorem iterate_lengths (o : String → String) (ts : List String) :
    ∀ b₁ b₂ b₃ : List (String × String),
      (Simplechain.iterate o ts (b₁, b₂, b₃)).1.length = b₁.length + ts.length ∧
      (Simplechain.iterate o ts (b₁, b₂, b₃)).2.1.length = b₂.length + ts.length ∧
      (Simplechain.iterate o ts (b₁, b₂, b₃)).2.2.length = b₃.length + ts.length := by
  induction ts with
  | nil => intro b₁ b₂ b₃; simp [Simplechain.iterate]
  | cons t ts ih =>
    intro b₁ b₂ b₃
    have hstep : Simplechain.iterate o (t :: ts) (b₁, b₂, b₃) =
        Simplechain.iterate o ts (b₁ ++ [(t, Simplechain.out1 o t)],
          b₂ ++ [(Simplechain.out1 o t, Simplechain.out2 o t)],
          b₃ ++ [(Simplechain.out2 o t, Simplechain.out3 o t)]) := rfl
    rw [hstep]
    obtain ⟨h1, h2, h3⟩ := ih (b₁ ++ [(t, Simplechain.out1 o t)])
      (b₂ ++ [(Simplechain.out1 o t, Simplechain.out2 o t)])
      (b₃ ++ [(Simplechain.out2 o t, Simplechain.out3 o t)])
    refine ⟨?_, ?_, ?_⟩ <;> simp only [h1, h2, h3, List.length_append,
      List.length_cons, List.length_nil] <;> omega

/-! ### Claim theorems -/

/-- C1: for the sequential three-stage pipeline run on input
"Albert Einstein", the result mapping contains exactly the keys
person, dob, description (no other keys), and the input recorded for
stage 2 equals the output recorded for stage 1 verbatim. -/
theorem seq_pipeline_einstein (o : String → String) :
    ∃ vals cs reqs,
      (Simplechain.parent_chain [] [] []).call Simplechain.l
          (fun s => Except.ok (o s)) "Albert Einstein" =
        Except.ok (vals, cs, reqs) ∧
      Mapping.keys vals = ["person", "dob", "description"] ∧
      (Simplechain.bufferAt cs 1).map Prod.fst =
        (Simplechain.bufferAt cs 0).map Prod.snd :=
  ⟨_, _, _, parent_call_step o "Albert Einstein" [] [] [], rfl, rfl⟩

/-- C2 (counterexample): the text claimed as the trailing line,
"word: big, antonym:", occurs nowhere in the rendered few-shot prompt
for final input "big" (the suffix template renders as
"word:big\n antonym:" — no space after `word:` and a newline rather than
a comma before ` antonym:`). -/
theorem few_shot_claimed_line_absent :
    charsContain "word: big, antonym:".data
      (Prompt.few_shot.format [("input", "big")]).data = false := by
  decide

/-- C2 (amended): the few-shot renderer on examples
[(tall, short), (happy, sad)] and final input "big" yields the prefix
followed by both example lines in their given order, followed by the
trailing unterminated suffix rendering "word:big\n antonym:" with nothing
after it. -/
theorem few_shot_rendering :
    Prompt.few_shot.format [("input", "big")] =
      "Given the antonym of every input\n\nword:tall, antonym:short\nword:happy, antonym:sad\nword:big\n antonym:" ∧
    charsContain "word:tall, antonym:short\nword:happy, antonym:sad".data
      (Prompt.few_shot.format [("input", "big")]).data = true ∧
    charsEndWith "word:big\n antonym:".data
      (Prompt.few_shot.format [("input", "big")]).data = true := by
  refine ⟨rfl, by decide, by decide⟩

/-- C3: every per-stage conversation buffer is append-only: one pipeline
invocation appends exactly one (input, output) pair to each stage's
buffer, leaving the earlier entries in place, and after iterating over
any list of inputs each buffer has grown by exactly one entry per
invocation. -/
theorem buffers_append_only :
    (∀ (o : String → String) (t : String) (b₁ b₂ b₃ : List (String × String)),
      ∃ p₁ p₂ p₃ vals reqs,
        (Simplechain.parent_chain b₁ b₂ b₃).call Simplechain.l
            (fun s => Except.ok (o s)) t =
          Except.ok (vals,
            Simplechain.parentChains (b₁ ++ [p₁]) (b₂ ++ [p₂]) (b₃ ++ [p₃]),
            reqs)) ∧
    (∀ (o : String → String) (ts : List String)
        (b₁ b₂ b₃ : List (String × String)),
      (Simplechain.iterate o ts (b₁, b₂, b₃)).1.length = b₁.length + ts.length ∧
      (Simplechain.iterate o ts (b₁, b₂, b₃)).2.1.length = b₂.length + ts.length ∧
      (Simplechain.iterate o ts (b₁, b₂, b₃)).2.2.length = b₃.length + ts.length) := by
  constructor
  · intro o t b₁ b₂ b₃
    exact ⟨_, _, _, _, _, parent_call_step o t b₁ b₂ b₃⟩
  · intro o ts b₁ b₂ b₃
    exact iterate_lengths o ts b₁ b₂ b₃

/-- C4: if a stage of the sequential pipeline fails, the stages after it
are not executed (the run produces no result mapping at all, so their
output keys are not produced) and the failure propagates to the caller
verbatim, uncaught and untransformed. -/
theorem stage_failure_aborts (llm : OpenAI) (o : String → Except String String)
    (pre : List LLMChain) (c : LLMChain) (post : List LLMChain) :
    ∀ (vals vals₁ : Mapping) (cs₁ : List LLMChain) (reqs₁ : List Request)
      (e : PipeError),
      runChains llm o pre vals = Except.ok (vals₁, cs₁, reqs₁) →
      runStep llm o c vals₁ = Except.error e →
      runChains llm o (pre ++ c :: post) vals = Except.error e := by
  induction pre with
  | nil =>
    intro vals vals₁ cs₁ reqs₁ e hpre hfail
    simp only [runChains, Except.ok.injEq, Prod.mk.injEq] at hpre
    obtain ⟨h1, -, -⟩ := hpre
    subst h1
    simp only [List.nil_append, runChains, hfail]
  | cons c₀ rest ih =>
    intro vals vals₁ cs₁ reqs₁ e hpre hfail
    rw [List.cons_append]
    cases h₀ : runStep llm o c₀ vals with
    | error e₀ => simp [runChains, h₀] at hpre
    | ok r =>
      obtain ⟨v', c', req⟩ := r
      simp only [runChains, h₀] at hpre ⊢
      cases hr : runChains llm o rest v' with
      | error e₀ => simp [hr] at hpre
      | ok r₂ =>
        obtain ⟨v'', cs'', rs''⟩ := r₂
        simp only [hr, Except.ok.injEq, Prod.mk.injEq] at hpre
        obtain ⟨h1, -, -⟩ := hpre
        subst h1
        rw [ih v' v'' cs'' rs'' e hr hfail]

/-- C4 (witness): with an oracle that fails on every request, the first
stage of the concrete pipeline fails and the whole run returns exactly
that transport error. -/
theorem stage_failure_aborts_witness :
    runChains Simplechain.l (fun _ => Except.error "boom")
      (Simplechain.parentChains [] [] []) [("name", "x")] =
      Except.error (PipeError.llm "boom") :=
  stage_failure_aborts Simplechain.l (fun _ => Except.error "boom") []
    (Simplechain.chain []) [Simplechain.chain2 [], Simplechain.chain3 []]
    [("name", "x")] [("name", "x")] [] [] (PipeError.llm "boom") rfl rfl

/-- C5 (counterexample): rendering the two-variable template with the
mapping holding only the undeclared key "extra" fails with a
missing-variable error, not an unused-variable error, although the
mapping contains a key outside the declared variable set. -/
theorem extra_key_not_unused_error :
    ("extra" ∈ Mapping.keys [("extra", "x")] ∧
      "extra" ∉ Prompt.lang_prompt.inputVariables) ∧
    Prompt.lang_prompt.format [("extra", "x")] =
      Except.error (RenderError.missingVariable "sentence") ∧
    isUnusedVariableError (Prompt.lang_prompt.format [("extra", "x")]) = false :=
  ⟨⟨by decide, by decide⟩, rfl, by decide⟩

/-- C5 (amended): rendering a template with a mapping whose key set is a
strict subset of the declared variables fails with a missing-variable
error; rendering with a mapping that supplies every declared variable and
also a key outside them fails with an unused-variable error. -/
theorem template_error_policy (pt : PromptTemplate) (m : Mapping) :
    ((∀ k ∈ Mapping.keys m, k ∈ pt.inputVariables) →
      (∃ v ∈ pt.inputVariables, v ∉ Mapping.keys m) →
      ∃ v, pt.format m = Except.error (RenderError.missingVariable v)) ∧
    ((∀ v ∈ pt.inputVariables, v ∈ Mapping.keys m) →
      (∃ k ∈ Mapping.keys m, k ∉ pt.inputVariables) →
      ∃ k, pt.format m = Except.error (RenderError.unusedVariable k)) := by
  constructor
  · rintro - ⟨v, hv, hnv⟩
    have hsome : (pt.inputVariables.find? fun v => (m.lookup v).isNone).isSome := by
      rw [List.find?_isSome]
      exact ⟨v, hv, (lookup_isNone_iff m v).mpr hnv⟩
    obtain ⟨w, hw⟩ := Option.isSome_iff_exists.mp hsome
    refine ⟨w, ?_⟩
    unfold PromptTemplate.format
    rw [hw]
  · rintro hall ⟨k, hk, hnk⟩
    have hnone : (pt.inputVariables.find? fun v => (m.lookup v).isNone) = none := by
      rw [List.find?_eq_none]
      intro v hv
      simp only [Bool.not_eq_true]
      cases hcase : (m.lookup v).isNone with
      | false => rfl
      | true => exact absurd (hall v hv) ((lookup_isNone_iff m v).mp hcase)
    have hsome :
        ((Mapping.keys m).find? fun x => !(pt.inputVariables.contains x)).isSome := by
      rw [List.find?_isSome]
      refine ⟨k, hk, ?_⟩
      rw [Bool.not_eq_true']
      cases hc : pt.inputVariables.contains k with
      | false => rfl
      | true => exact absurd (List.elem_iff.mp hc) hnk
    obtain ⟨w, hw⟩ := Option.isSome_iff_exists.mp hsome
    refine ⟨w, ?_⟩
    unfold PromptTemplate.format
    rw [hnone, hw]

/-- C5 (witness): the two template-error cases at concrete inputs — a
strict-subset mapping yields a missing-variable error, and a superset
mapping with the extra key "extra" yields an unused-variable error. -/
theorem template_error_policy_witness :
    (∃ v, Prompt.lang_prompt.format [("sentence", "hi")] =
      Except.error (RenderError.missingVariable v)) ∧
    (∃ k, Prompt.lang_prompt.format
        [("sentence", "a"), ("target_language", "b"), ("extra", "c")] =
      Except.error (RenderError.unusedVariable k)) :=
  ⟨(template_error_policy Prompt.lang_prompt [("sentence", "hi")]).1
      (by decide) (by decide),
   (template_error_policy Prompt.lang_prompt
        [("sentence", "a"), ("target_language", "b"), ("extra", "c")]).2
      (by decide) (by decide)⟩

/-- C6: rendering a template with a mapping whose key set equals the
declared variable set exactly succeeds — it never raises a missing- or
unused-variable error — and yields the template text with every
placeholder substituted (every placeholder finds a supplied value). -/
theorem format_exact_keys (pt : PromptTemplate) (m : Mapping)
    (hsub : ∀ k ∈ Mapping.keys m, k ∈ pt.inputVariables)
    (hsup : ∀ v ∈ pt.inputVariables, v ∈ Mapping.keys m)
    (hwf : ∀ v ∈ placeholders pt.parts, v ∈ pt.inputVariables) :
    pt.format m = Except.ok (renderParts pt.parts m) ∧
    ∀ v ∈ placeholders pt.parts, ∃ t, m.lookup v = some t := by
  have hmiss : (pt.inputVariables.find? fun v => (m.lookup v).isNone) = none := by
    rw [List.find?_eq_none]
    intro v hv
    simp only [Bool.not_eq_true]
    cases hcase : (m.lookup v).isNone with
    | false => rfl
    | true => exact absurd (hsup v hv) ((lookup_isNone_iff m v).mp hcase)
  have hunused :
      ((Mapping.keys m).find? fun x => !(pt.inputVariables.contains x)) = none := by
    rw [List.find?_eq_none]
    intro k hk
    simp only [Bool.not_eq_true]
    rw [Bool.not_eq_false']
    exact List.elem_iff.mpr (hsub k hk)
  constructor
  · unfold PromptTemplate.format
    rw [hmiss, hunused]
  · intro v hv
    have hmem := hsup v (hwf v hv)
    cases h : m.lookup v with
    | none =>
      exact absurd ((lookup_isNone_iff m v).mp (by rw [h]; rfl)) (fun hc => hc hmem)
    | some t => exact ⟨t, rfl⟩

/-- C6 (witness): the two-variable template rendered with exactly its
declared variables succeeds and substitutes both placeholders. -/
theorem format_exact_keys_witness :
    Prompt.lang_prompt.format
        [("sentence", "Hellow, How r u"), ("target_language", "Telugu")] =
      Except.ok (renderParts Prompt.lang_prompt.parts
        [("sentence", "Hellow, How r u"), ("target_language", "Telugu")]) ∧
    ∀ v ∈ placeholders Prompt.lang_prompt.parts, ∃ t,
      ([("sentence", "Hellow, How r u"), ("target_language", "Telugu")] :
        Mapping).lookup v = some t :=
  format_exact_keys Prompt.lang_prompt
    [("sentence", "Hellow, How r u"), ("target_language", "Telugu")]
    (by decide) (by decide) (by decide)

/-- C7: the single-prompt segment of `prompt.py` on input "GDP" issues
exactly one completion request, that request carries sampling temperature
0.8, and exactly one text result is printed (no retries: the request list
is literally a singleton). -/
theorem single_prompt_gdp_trace (o : String → String) :
    Prompt.singlePromptRun o =
      ([{ prompt := " I want you to act as a financial advisor for people. In an easy way, explain the basics of GDP.",
          temperature := 0.8 }],
       [o " I want you to act as a financial advisor for people. In an easy way, explain the basics of GDP."]) :=
  rfl

/-- C8: every stage's declared input key in the sequential pipeline is
either the pipeline's external input key "name" or the output key of a
strictly earlier stage; concretely stage 1 consumes the external "name",
stage 2 consumes stage 1's output key "person", and stage 3 consumes
stage 2's output key "dob". -/
theorem parent_chain_well_wired :
    wellWired "name" (Simplechain.parentChains [] [] []) ∧
    (Simplechain.parent_chain [] [] []).inputVariables = ["name"] ∧
    Simplechain.first_input.inputVariables = ["name"] ∧
    Simplechain.second_input.inputVariables = ["person"] ∧
    (Simplechain.chain []).outputKey = "person" ∧
    Simplechain.third_input.inputVariables = ["dob"] ∧
    (Simplechain.chain2 []).outputKey = "dob" := by
  refine ⟨?_, rfl, rfl, rfl, rfl, rfl, rfl⟩
  unfold wellWired
  decide

/-- C9: one run of `prompt.py` issues exactly four completion requests —
one single-variable, one two-variable, and two identical few-shot
requests for the same input "big" (not one per example). -/
theorem prompt_script_four_requests (o : String → String) :
    (Prompt.promptScript o).1 =
      [{ prompt := " I want you to act as a financial advisor for people. In an easy way, explain the basics of GDP.",
         temperature := 0.8 },
       { prompt := "Translate the following sentence Hellow, How r u into Telugu",
         temperature := 0.8 },
       { prompt := "Given the antonym of every input\n\nword:tall, antonym:short\nword:happy, antonym:sad\nword:big\n antonym:",
         temperature := 0.8 },
       { prompt := "Given the antonym of every input\n\nword:tall, antonym:short\nword:happy, antonym:sad\nword:big\n antonym:",
         temperature := 0.8 }] ∧
    (Prompt.promptScript o).1.length = 4 :=
  ⟨rfl, rfl⟩

/-- C10: in both interactive scripts an empty text-input value issues no
completion request, renders no result, and leaves every conversation
buffer empty. -/
theorem empty_input_no_effects (o : String → String) :
    Main.mainScript o "" = ([], []) ∧
    Simplechain.simplechainScript o "" = ([], ([], [], []), []) :=
  ⟨rfl, rfl⟩

end LangchainSpec
